import Mathlib

/-!
Verification of the Expense Tracker repository (src/expense_tracker.py and
src/database_reset.py) against its specification.

Modelling conventions, justified line by line against the source:

* The SQLite database is a `DB` record: the `expenses` table is a list of
  `Expense` rows together with the AUTOINCREMENT counter `next_id`;
  `categories` and `payment_methods` are lists of reference rows.
* SQLite REAL amounts and budgets are modelled as `Rat`.  All amounts in the
  claims are exact decimals, and the pandas post-processing in
  get_budget_performance divides and rounds values for which binary floating
  point and exact rational arithmetic agree at every input the claims touch.
* CURRENT_TIMESTAMP is modelled by an explicit `now : Nat` argument threaded
  into the operations that store timestamps.
* SQL LIKE with a pattern that is a literal followed by a single trailing
  percent wildcard is prefix matching on the stored text; dates contain only
  digits and hyphens, so the ASCII case folding of LIKE is irrelevant.
* ORDER BY date DESC, id DESC sorts by the binary collation of the date text
  and then by the integer id; `id` is the primary key so the order is total
  and any correct sorting algorithm produces the same list.  We use
  Mathlib insertionSort, which the kernel can evaluate on concrete inputs.
* pandas float division by zero raises nothing and yields IEEE infinity or
  NaN; the `PFloat` type records that outcome exactly.
-/

/-- Result of a pandas float computation: a finite value (exact, as a
rational), positive or negative infinity, or NaN. -/
inductive PFloat where
  | val : Rat → PFloat
  | posInf : PFloat
  | negInf : PFloat
  | nan : PFloat
deriving DecidableEq, Repr

/-- Float division as performed by pandas on a Series: division by zero
yields a signed infinity for a nonzero numerator and NaN for 0/0, never an
exception. -/
def pdiv (a b : Rat) : PFloat :=
  if b ≠ 0 then .val (a / b)
  else if 0 < a then .posInf
  else if a < 0 then .negInf
  else .nan

/-- Multiplication of a pandas value by the scalar 100, as in
spent / budget * 100; infinities and NaN absorb. -/
def pmul100 : PFloat → PFloat
  | .val q => .val (q * 100)
  | x => x

/-- Round to nearest integer, ties to even: the rounding used by the numpy
round that backs the pandas Series.round method. -/
def roundHalfEven (q : Rat) : Int :=
  let f := ⌊q⌋
  let r := q - (f : Rat)
  if r < 1 / 2 then f
  else if 1 / 2 < r then f + 1
  else if f % 2 = 0 then f else f + 1

/-- Round a rational to one decimal place, as in Series.round 1. -/
def roundTenth (q : Rat) : Rat := (roundHalfEven (q * 10) : Rat) / 10

/-- Series.round 1 on a pandas value: finite values are rounded to one
decimal, infinities and NaN are unchanged. -/
def pround1 : PFloat → PFloat
  | .val q => .val (roundTenth q)
  | x => x

/-- SQL SUM over the listed values: NULL (none) on an empty group, otherwise
the sum. -/
def sqlSum (l : List Rat) : Option Rat :=
  if l.isEmpty then none else some (l.foldl (· + ·) 0)

/-- The Python idiom x or 0 applied to a SUM result fetched from SQLite:
NULL becomes 0 (and a stored 0.0, being falsy, also maps to 0). -/
def orZero : Option Rat → Rat
  | none => 0
  | some v => v

/-- SQL LIKE with a pattern that is a literal followed by one trailing
percent wildcard: a prefix test on the character sequence of the stored
text (dates hold only digits and hyphens, so the ASCII case folding of
LIKE changes nothing). -/
def likePrefix (pat s : String) : Bool := pat.data.isPrefixOf s.data

/-- A calendar date as held by datetime.now. -/
structure Date where
  year : Nat
  month : Nat
  day : Nat
deriving DecidableEq, Repr

def isLeap (y : Nat) : Bool :=
  (y % 4 == 0 && y % 100 != 0) || y % 400 == 0

def daysInMonth (y m : Nat) : Nat :=
  if m == 2 then (if isLeap y then 29 else 28)
  else if m == 4 || m == 6 || m == 9 || m == 11 then 30
  else 31

/-- Zero-pad a month or day to two digits, as strftime does. -/
def pad2 (n : Nat) : String :=
  if n < 10 then "0" ++ toString n else toString n

/-- Zero-pad a year to four digits, as strftime %Y does in CPython. -/
def pad4 (n : Nat) : String :=
  if n < 10 then "000" ++ toString n
  else if n < 100 then "00" ++ toString n
  else if n < 1000 then "0" ++ toString n
  else toString n

/-- strftime with format %Y-%m. -/
def monthStr (y m : Nat) : String := pad4 y ++ "-" ++ pad2 m

/-- datetime.replace with day set to 1. -/
def replaceDay1 (d : Date) : Date := { d with day := 1 }

/-- Subtracting timedelta(days=1) from a valid date. -/
def subOneDay (d : Date) : Date :=
  if 1 < d.day then { d with day := d.day - 1 }
  else if 1 < d.month then
    { year := d.year, month := d.month - 1, day := daysInMonth d.year (d.month - 1) }
  else
    { year := d.year - 1, month := 12, day := 31 }

/-- The current-month key datetime.now().strftime of %Y-%m. -/
def currentMonthKey (today : Date) : String := monthStr today.year today.month

/-- The previous-month key computed by get_monthly_summary:
(datetime.now().replace(day=1) - timedelta(days=1)).strftime of %Y-%m. -/
def lastMonthKey (today : Date) : String :=
  let p := subOneDay (replaceDay1 today)
  monthStr p.year p.month

/-- A row of the expenses table. -/
structure Expense where
  id : Nat
  user_id : Nat
  date : String
  amount : Rat
  category : String
  description : String
  tags : String
  payment_method : String
  recurring : Bool
  created_at : Nat
  updated_at : Nat
deriving DecidableEq, Repr

/-- A row of the categories table (the seeded columns). -/
structure Category where
  name : String
  budget : Rat
  color : String
  icon : String
deriving DecidableEq, Repr

/-- A row of the payment_methods table (the seeded columns). -/
structure PaymentMethod where
  name : String
  type : String
deriving DecidableEq, Repr

/-- The database state: the expenses table with its AUTOINCREMENT counter,
and the two reference tables. -/
structure DB where
  expenses : List Expense
  categories : List Category
  payment_methods : List PaymentMethod
  next_id : Nat
deriving DecidableEq, Repr

def emptyDB : DB := { expenses := [], categories := [], payment_methods := [], next_id := 1 }

/-- The ORDER BY date DESC, id DESC comparison of get_expenses. -/
def expLe (a b : Expense) : Prop :=
  b.date < a.date ∨ (b.date = a.date ∧ b.id ≤ a.id)

instance : DecidableRel expLe := fun a b =>
  inferInstanceAs (Decidable (b.date < a.date ∨ (b.date = a.date ∧ b.id ≤ a.id)))

/-- get_expenses with the default query:
SELECT * FROM expenses WHERE user_id = ? ORDER BY date DESC, id DESC. -/
def get_expenses (db : DB) (u : Nat) : List Expense :=
  (db.expenses.filter (fun e => e.user_id == u)).insertionSort expLe

/-- The filter controls of render_expense_list.  A category or payment value
of All adds no clause; the date bounds are added when the widget yields a
value (it always does, hence Option models the Python truthiness test); the
amount bounds are added only when strictly positive, as in the source. -/
structure Filters where
  category : String
  payment : String
  date_from : Option String
  date_to : Option String
  min_amount : Rat
  max_amount : Rat
deriving Repr

/-- The WHERE clauses appended by render_expense_list beyond user_id = ?. -/
def matchesFilters (f : Filters) (e : Expense) : Bool :=
  (f.category == "All" || e.category == f.category) &&
  (f.payment == "All" || e.payment_method == f.payment) &&
  (match f.date_from with | none => true | some d => decide (d ≤ e.date)) &&
  (match f.date_to with | none => true | some d => decide (e.date ≤ d)) &&
  (if 0 < f.min_amount then decide (f.min_amount ≤ e.amount) else true) &&
  (if 0 < f.max_amount then decide (e.amount ≤ f.max_amount) else true)

/-- get_expenses with the query built by render_expense_list:
SELECT * FROM expenses WHERE user_id = ? AND ... ORDER BY date DESC, id DESC. -/
def get_expenses_filtered (db : DB) (u : Nat) (f : Filters) : List Expense :=
  (db.expenses.filter (fun e => e.user_id == u && matchesFilters f e)).insertionSort expLe

/-- The row INSERTed by add_expense: the supplied values, the next
AUTOINCREMENT id, and CURRENT_TIMESTAMP for both timestamp columns. -/
def newExpense (db : DB) (u : Nat) (date : String) (amount : Rat)
    (category description tags payment_method : String) (recurring : Bool)
    (now : Nat) : Expense :=
  { id := db.next_id, user_id := u, date := date, amount := amount,
    category := category, description := description, tags := tags,
    payment_method := payment_method, recurring := recurring,
    created_at := now, updated_at := now }

/-- add_expense: INSERT a new row with the supplied values; the
CHECK (amount > 0) constraint aborts the insert for a non-positive amount,
the exception is caught and False is returned with the table unchanged. -/
def add_expense (db : DB) (u : Nat) (date : String) (amount : Rat)
    (category description tags payment_method : String) (recurring : Bool)
    (now : Nat) : DB × Bool :=
  if 0 < amount then
    ({ db with
        expenses := db.expenses ++
          [newExpense db u date amount category description tags payment_method recurring now],
        next_id := db.next_id + 1 }, true)
  else (db, false)

/-- update_expense: UPDATE ... SET ... updated_at = CURRENT_TIMESTAMP
WHERE id = ? AND user_id = ?; returns cursor.rowcount > 0.  A non-positive
amount violates CHECK (amount > 0) on any matched row, the statement aborts,
the exception is caught and False is returned with the table unchanged
(when no row matches, rowcount is 0 and the result is False either way). -/
def update_expense (db : DB) (u : Nat) (expense_id : Nat) (date : String)
    (amount : Rat) (category description tags payment_method : String)
    (recurring : Bool) (now : Nat) : DB × Bool :=
  if 0 < amount then
    ({ db with
        expenses := db.expenses.map (fun e =>
          if e.id == expense_id && e.user_id == u then
            { e with date := date, amount := amount, category := category,
                     description := description, tags := tags,
                     payment_method := payment_method, recurring := recurring,
                     updated_at := now }
          else e) },
     db.expenses.any (fun e => e.id == expense_id && e.user_id == u))
  else (db, false)

/-- delete_expense: DELETE FROM expenses WHERE id = ? AND user_id = ?;
returns cursor.rowcount > 0. -/
def delete_expense (db : DB) (u : Nat) (expense_id : Nat) : DB × Bool :=
  ({ db with
      expenses := db.expenses.filter (fun e => !(e.id == expense_id && e.user_id == u)) },
   db.expenses.any (fun e => e.id == expense_id && e.user_id == u))

/-- The guard in render_add_expense: the form calls add_expense only when
amount > 0, otherwise it shows an error and no storage call happens. -/
def render_add_expense_submit (db : DB) (u : Nat) (date : String) (amount : Rat)
    (category description tags payment_method : String) (recurring : Bool)
    (now : Nat) : DB × Bool :=
  if 0 < amount then
    add_expense db u date amount category description tags payment_method recurring now
  else (db, false)

/-- get_monthly_summary: current-month total and count and previous-month
total, each over rows of this user whose date matches the month key with a
trailing LIKE wildcard, i.e. by string prefix; SUM over an empty group is
NULL and the Python or 0 turns it into 0. -/
def get_monthly_summary (db : DB) (u : Nat) (today : Date) : Rat × Rat × Nat :=
  let cur := db.expenses.filter
    (fun e => e.user_id == u && likePrefix (currentMonthKey today) e.date)
  let prev := db.expenses.filter
    (fun e => e.user_id == u && likePrefix (lastMonthKey today) e.date)
  (orZero (sqlSum (cur.map (·.amount))),
   orZero (sqlSum (prev.map (·.amount))),
   cur.length)

/-- COALESCE (SUM (e.amount), 0) over the LEFT JOIN of get_budget_performance:
the current-month spending of user u in the category named cname. -/
def spentFor (db : DB) (u : Nat) (monthKey : String) (cname : String) : Rat :=
  ((db.expenses.filter (fun e =>
      e.category == cname && likePrefix monthKey e.date && e.user_id == u)).map
    (·.amount)).foldl (· + ·) 0

/-- One row of the DataFrame built by get_budget_performance after the
remaining, percentage and status columns are added. -/
structure BudgetRow where
  name : String
  budget : Rat
  color : String
  icon : String
  spent : Rat
  remaining : Rat
  percentage : PFloat
  status : String
deriving DecidableEq, Repr

/-- The ORDER BY c.name of get_budget_performance. -/
def catLe (a b : Category) : Prop := a.name ≤ b.name

instance : DecidableRel catLe := fun a b =>
  inferInstanceAs (Decidable (a.name ≤ b.name))

/-- get_budget_performance: one row per category (name is UNIQUE, so each
GROUP BY group is a single categories row), ordered by name, with spent the
COALESCEd sum of this user's current-month expenses whose category text
equals the category name, and the pandas-derived remaining, percentage and
status columns. -/
def get_budget_performance (db : DB) (u : Nat) (today : Date) : List BudgetRow :=
  let mk := currentMonthKey today
  (db.categories.insertionSort catLe).map (fun c =>
    let spent := spentFor db u mk c.name
    let remaining := c.budget - spent
    { name := c.name, budget := c.budget, color := c.color, icon := c.icon,
      spent := spent, remaining := remaining,
      percentage := pround1 (pmul100 (pdiv spent c.budget)),
      status := if remaining < 0 then "Over Budget" else "Within Budget" })

/-- An operation of the expense CRUD surface, for reasoning about arbitrary
operation sequences. -/
inductive Op where
  | addE (u : Nat) (date : String) (amount : Rat)
      (category description tags payment_method : String) (recurring : Bool) (now : Nat)
  | updateE (u expense_id : Nat) (date : String) (amount : Rat)
      (category description tags payment_method : String) (recurring : Bool) (now : Nat)
  | deleteE (u expense_id : Nat)
deriving Repr

/-- The state change an operation performs on the expenses table. -/
def applyOp (db : DB) : Op → DB
  | .addE u d a c ds t p r n => (add_expense db u d a c ds t p r n).1
  | .updateE u e d a c ds t p r n => (update_expense db u e d a c ds t p r n).1
  | .deleteE u e => (delete_expense db u e).1

/-- Run a sequence of CRUD operations. -/
def runOps (db : DB) (ops : List Op) : DB := ops.foldl applyOp db

/-- Every stored expense row has a strictly positive amount. -/
def AmountsPos (db : DB) : Prop := ∀ e ∈ db.expenses, 0 < e.amount

/-- Well-formed AUTOINCREMENT state: every stored id is below the next id to
be assigned (SQLite AUTOINCREMENT never reuses an id). -/
def IdsFresh (db : DB) : Prop := ∀ e ∈ db.expenses, e.id < db.next_id

/-- A column definition inside a CREATE TABLE statement: column name, SQL
type, the attached constraint clauses in order, and the DEFAULT value text
when present (the SQL quoting around text defaults is elided). -/
structure ColumnDef where
  col : String
  sqlType : String
  constraints : List String
  sqlDefault : Option String
deriving DecidableEq, Repr

/-- A table of the schema: its name, its column definitions in order, and
its table-level constraints, transcribed from one CREATE TABLE statement. -/
structure TableDef where
  table : String
  columns : List ColumnDef
  tableConstraints : List String
deriving DecidableEq, Repr

/-- The four CREATE TABLE statements of init_db in expense_tracker.py
(each written with IF NOT EXISTS, which changes nothing on a fresh
database). -/
def init_db_schema : List TableDef :=
  [{ table := "users",
     columns :=
       [{ col := "id", sqlType := "INTEGER",
          constraints := ["PRIMARY KEY AUTOINCREMENT"], sqlDefault := none },
        { col := "username", sqlType := "TEXT",
          constraints := ["UNIQUE", "NOT NULL"], sqlDefault := none },
        { col := "password", sqlType := "TEXT",
          constraints := ["NOT NULL"], sqlDefault := none },
        { col := "created_at", sqlType := "TIMESTAMP",
          constraints := [], sqlDefault := some "CURRENT_TIMESTAMP" }],
     tableConstraints := [] },
   { table := "expenses",
     columns :=
       [{ col := "id", sqlType := "INTEGER",
          constraints := ["PRIMARY KEY AUTOINCREMENT"], sqlDefault := none },
        { col := "user_id", sqlType := "INTEGER",
          constraints := ["NOT NULL"], sqlDefault := none },
        { col := "date", sqlType := "TEXT",
          constraints := ["NOT NULL"], sqlDefault := none },
        { col := "amount", sqlType := "REAL",
          constraints := ["NOT NULL", "CHECK(amount > 0)"], sqlDefault := none },
        { col := "category", sqlType := "TEXT",
          constraints := ["NOT NULL"], sqlDefault := none },
        { col := "description", sqlType := "TEXT",
          constraints := [], sqlDefault := some "" },
        { col := "tags", sqlType := "TEXT",
          constraints := [], sqlDefault := some "" },
        { col := "payment_method", sqlType := "TEXT",
          constraints := [], sqlDefault := some "Cash" },
        { col := "recurring", sqlType := "BOOLEAN",
          constraints := [], sqlDefault := some "0" },
        { col := "created_at", sqlType := "TIMESTAMP",
          constraints := [], sqlDefault := some "CURRENT_TIMESTAMP" },
        { col := "updated_at", sqlType := "TIMESTAMP",
          constraints := [], sqlDefault := some "CURRENT_TIMESTAMP" }],
     tableConstraints :=
       ["FOREIGN KEY (user_id) REFERENCES users(id) ON DELETE CASCADE"] },
   { table := "categories",
     columns :=
       [{ col := "id", sqlType := "INTEGER",
          constraints := ["PRIMARY KEY AUTOINCREMENT"], sqlDefault := none },
        { col := "name", sqlType := "TEXT",
          constraints := ["UNIQUE", "NOT NULL"], sqlDefault := none },
        { col := "budget", sqlType := "REAL",
          constraints := [], sqlDefault := some "0" },
        { col := "color", sqlType := "TEXT",
          constraints := [], sqlDefault := some "#FF6B6B" },
        { col := "icon", sqlType := "TEXT",
          constraints := [], sqlDefault := some "💰" },
        { col := "created_at", sqlType := "TIMESTAMP",
          constraints := [], sqlDefault := some "CURRENT_TIMESTAMP" }],
     tableConstraints := [] },
   { table := "payment_methods",
     columns :=
       [{ col := "id", sqlType := "INTEGER",
          constraints := ["PRIMARY KEY AUTOINCREMENT"], sqlDefault := none },
        { col := "name", sqlType := "TEXT",
          constraints := ["UNIQUE", "NOT NULL"], sqlDefault := none },
        { col := "type", sqlType := "TEXT",
          constraints := [], sqlDefault := some "Cash" }],
     tableConstraints := [] }]

/-- The four CREATE TABLE statements of reset_database in database_reset.py
(plain CREATE TABLE, executed after deleting the database file). -/
def reset_database_schema : List TableDef :=
  [{ table := "users",
     columns :=
       [{ col := "id", sqlType := "INTEGER",
          constraints := ["PRIMARY KEY AUTOINCREMENT"], sqlDefault := none },
        { col := "username", sqlType := "TEXT",
          constraints := ["UNIQUE", "NOT NULL"], sqlDefault := none },
        { col := "password", sqlType := "TEXT",
          constraints := ["NOT NULL"], sqlDefault := none },
        { col := "created_at", sqlType := "TIMESTAMP",
          constraints := [], sqlDefault := some "CURRENT_TIMESTAMP" }],
     tableConstraints := [] },
   { table := "expenses",
     columns :=
       [{ col := "id", sqlType := "INTEGER",
          constraints := ["PRIMARY KEY AUTOINCREMENT"], sqlDefault := none },
        { col := "user_id", sqlType := "INTEGER",
          constraints := ["NOT NULL"], sqlDefault := none },
        { col := "date", sqlType := "TEXT",
          constraints := ["NOT NULL"], sqlDefault := none },
        { col := "amount", sqlType := "REAL",
          constraints := ["NOT NULL", "CHECK(amount > 0)"], sqlDefault := none },
        { col := "category", sqlType := "TEXT",
          constraints := ["NOT NULL"], sqlDefault := none },
        { col := "description", sqlType := "TEXT",
          constraints := [], sqlDefault := some "" },
        { col := "tags", sqlType := "TEXT",
          constraints := [], sqlDefault := some "" },
        { col := "payment_method", sqlType := "TEXT",
          constraints := [], sqlDefault := some "Cash" },
        { col := "recurring", sqlType := "BOOLEAN",
          constraints := [], sqlDefault := some "0" },
        { col := "created_at", sqlType := "TIMESTAMP",
          constraints := [], sqlDefault := some "CURRENT_TIMESTAMP" },
        { col := "updated_at", sqlType := "TIMESTAMP",
          constraints := [], sqlDefault := some "CURRENT_TIMESTAMP" }],
     tableConstraints :=
       ["FOREIGN KEY (user_id) REFERENCES users(id) ON DELETE CASCADE"] },
   { table := "categories",
     columns :=
       [{ col := "id", sqlType := "INTEGER",
          constraints := ["PRIMARY KEY AUTOINCREMENT"], sqlDefault := none },
        { col := "name", sqlType := "TEXT",
          constraints := ["UNIQUE", "NOT NULL"], sqlDefault := none },
        { col := "budget", sqlType := "REAL",
          constraints := [], sqlDefault := some "0" },
        { col := "color", sqlType := "TEXT",
          constraints := [], sqlDefault := some "#FF6B6B" },
        { col := "icon", sqlType := "TEXT",
          constraints := [], sqlDefault := some "💰" },
        { col := "created_at", sqlType := "TIMESTAMP",
          constraints := [], sqlDefault := some "CURRENT_TIMESTAMP" }],
     tableConstraints := [] },
   { table := "payment_methods",
     columns :=
       [{ col := "id", sqlType := "INTEGER",
          constraints := ["PRIMARY KEY AUTOINCREMENT"], sqlDefault := none },
        { col := "name", sqlType := "TEXT",
          constraints := ["UNIQUE", "NOT NULL"], sqlDefault := none },
        { col := "type", sqlType := "TEXT",
          constraints := [], sqlDefault := some "Cash" }],
     tableConstraints := [] }]

/-- The default_categories literal of init_db in expense_tracker.py. -/
def init_db_default_categories : List Category :=
  [{ name := "Food", budget := 300, color := "#FF6B6B", icon := "🍔" },
   { name := "Transportation", budget := 150, color := "#4ECDC4", icon := "🚗" },
   { name := "Housing", budget := 800, color := "#45B7D1", icon := "🏠" },
   { name := "Entertainment", budget := 200, color := "#96CEB4", icon := "🎬" },
   { name := "Utilities", budget := 250, color := "#FFE6A7", icon := "⚡" },
   { name := "Healthcare", budget := 200, color := "#D3D3D3", icon := "🏥" },
   { name := "Shopping", budget := 300, color := "#FFB6C1", icon := "🛍️" },
   { name := "Education", budget := 150, color := "#87CEEB", icon := "📚" },
   { name := "Others", budget := 100, color := "#D3D3D3", icon := "💼" }]

/-- The default_payments literal of init_db in expense_tracker.py. -/
def init_db_default_payments : List PaymentMethod :=
  [{ name := "Cash", type := "Cash" },
   { name := "Credit Card", type := "Card" },
   { name := "Debit Card", type := "Card" },
   { name := "Bank Transfer", type := "Digital" },
   { name := "Mobile Payment", type := "Digital" },
   { name := "Check", type := "Other" }]

/-- The default_categories literal of reset_database in database_reset.py. -/
def reset_default_categories : List Category :=
  [{ name := "Food", budget := 300, color := "#FF6B6B", icon := "🍔" },
   { name := "Transportation", budget := 150, color := "#4ECDC4", icon := "🚗" },
   { name := "Housing", budget := 800, color := "#45B7D1", icon := "🏠" },
   { name := "Entertainment", budget := 200, color := "#96CEB4", icon := "🎬" },
   { name := "Utilities", budget := 250, color := "#FFE6A7", icon := "⚡" },
   { name := "Healthcare", budget := 200, color := "#D3D3D3", icon := "🏥" },
   { name := "Shopping", budget := 300, color := "#FFB6C1", icon := "🛍️" },
   { name := "Education", budget := 150, color := "#87CEEB", icon := "📚" },
   { name := "Others", budget := 100, color := "#D3D3D3", icon := "💼" }]

/-- The default_payments literal of reset_database in database_reset.py. -/
def reset_default_payments : List PaymentMethod :=
  [{ name := "Cash", type := "Cash" },
   { name := "Credit Card", type := "Card" },
   { name := "Debit Card", type := "Card" },
   { name := "Bank Transfer", type := "Digital" },
   { name := "Mobile Payment", type := "Digital" },
   { name := "Check", type := "Other" }]

/-- The seeding effect of init_db on the reference tables: the defaults are
inserted only when the respective table is empty. -/
def init_db_seed (db : DB) : DB :=
  let db1 :=
    if db.categories.isEmpty then { db with categories := init_db_default_categories }
    else db
  if db1.payment_methods.isEmpty then
    { db1 with payment_methods := init_db_default_payments }
  else db1

/-- The database produced by reset_database: a fresh database holding
exactly the seeded reference rows. -/
def reset_database_db : DB :=
  { expenses := [], categories := reset_default_categories,
    payment_methods := reset_default_payments, next_id := 1 }

/-- The GROUP BY category aggregation of get_category_spending over an
already-filtered row list: one group per distinct category text, with the
summed amounts and the row count. -/
def categoryGroups (rows : List Expense) : List (String × Rat × Nat) :=
  ((rows.map (·.category)).dedup).map (fun k =>
    (k, ((rows.filter (fun e => e.category == k)).map (·.amount)).foldl (· + ·) 0,
        (rows.filter (fun e => e.category == k)).length))

/-- The ORDER BY total DESC of get_category_spending. -/
def totalDescLe (a b : String × Rat × Nat) : Prop := b.2.1 ≤ a.2.1

instance : DecidableRel totalDescLe := fun a b =>
  inferInstanceAs (Decidable (b.2.1 ≤ a.2.1))

/-- get_category_spending: SELECT category, SUM(amount), COUNT(*) FROM
expenses WHERE user_id = ? AND date >= ? GROUP BY category
ORDER BY total DESC; the start date is the formatted
datetime.now() - timedelta(days=days). -/
def get_category_spending (db : DB) (u : Nat) (start_date : String) :
    List (String × Rat × Nat) :=
  (categoryGroups (db.expenses.filter
    (fun e => e.user_id == u && start_date ≤ e.date))).insertionSort totalDescLe

/-- SQLite DATE(d, start of month) on a stored date in ISO YYYY-MM-DD form
(the only form the application ever stores, via strftime): the year-month
prefix of the text with the day replaced by 01. -/
def monthStart (d : String) : String := String.mk (d.data.take 7) ++ "-01"

/-- The GROUP BY month aggregation of the Monthly Trends report over an
already-filtered row list: one group per distinct start-of-month key, with
the summed amounts and the row count. -/
def monthlyGroups (rows : List Expense) : List (String × Rat × Nat) :=
  ((rows.map (fun e => monthStart e.date)).dedup).map (fun k =>
    (k, ((rows.filter (fun e => monthStart e.date == k)).map (·.amount)).foldl (· + ·) 0,
        (rows.filter (fun e => monthStart e.date == k)).length))

/-- The ORDER BY month (ascending) of the Monthly Trends report. -/
def monthAscLe (a b : String × Rat × Nat) : Prop := a.1 ≤ b.1

instance : DecidableRel monthAscLe := fun a b =>
  inferInstanceAs (Decidable (a.1 ≤ b.1))

/-- The Monthly Trends query of render_reports:
SELECT DATE(date, start of month) as month, SUM(amount), COUNT(*) FROM
expenses WHERE user_id = ? AND date >= date(now, -N months)
GROUP BY month ORDER BY month; the cutoff text that SQLite computes from
the current date and the month count is the start_date parameter. -/
def get_monthly_trend (db : DB) (u : Nat) (start_date : String) :
    List (String × Rat × Nat) :=
  (monthlyGroups (db.expenses.filter
    (fun e => e.user_id == u && start_date ≤ e.date))).insertionSort monthAscLe

/-- A two-user database used to exercise the ownership-isolation theorem on
concrete data. -/
def isoDB : DB :=
  { expenses :=
      [{ id := 1, user_id := 1, date := "2024-03-10", amount := 20,
         category := "Food", description := "lunch", tags := "",
         payment_method := "Cash", recurring := false,
         created_at := 0, updated_at := 0 },
       { id := 2, user_id := 2, date := "2024-03-11", amount := 7,
         category := "Food", description := "coffee", tags := "",
         payment_method := "Cash", recurring := false,
         created_at := 0, updated_at := 0 }],
    categories := init_db_default_categories,
    payment_methods := init_db_default_payments, next_id := 3 }

/-- The row of isoDB owned by user 2. -/
def isoRowB : Expense :=
  { id := 2, user_id := 2, date := "2024-03-11", amount := 7,
    category := "Food", description := "coffee", tags := "",
    payment_method := "Cash", recurring := false,
    created_at := 0, updated_at := 0 }

/-- A one-row database used for the update and delete result claims. -/
def oneRowDB : DB :=
  { expenses :=
      [{ id := 1, user_id := 1, date := "2024-01-01", amount := 5,
         category := "Food", description := "", tags := "",
         payment_method := "Cash", recurring := false,
         created_at := 0, updated_at := 0 }],
    categories := [], payment_methods := [], next_id := 2 }

/-- The example scenario of the spec: seed the default reference data and
add one expense of 42.50 in category Food on 2024-03-15 for user 1. -/
def scenarioDB : DB :=
  (add_expense (init_db_seed emptyDB) 1 "2024-03-15" (85 / 2) "Food" ""
    "" "Cash" false 0).1

/-- A date inside March 2024, the current month of the example scenario. -/
def scenarioToday : Date := { year := 2024, month := 3, day := 20 }

/-- A database holding a zero-budget category together with a current-month
expense in it, for the division-by-zero claim. -/
def zeroBudgetDB : DB :=
  { expenses :=
      [{ id := 1, user_id := 1, date := "2024-03-10", amount := 5,
         category := "Misc", description := "", tags := "",
         payment_method := "Cash", recurring := false,
         created_at := 0, updated_at := 0 }],
    categories := [{ name := "Misc", budget := 0, color := "#FF6B6B", icon := "💰" }],
    payment_methods := [], next_id := 2 }

/-- The calendar month immediately preceding the month of a date, written
from the claim: the same year with the month decremented, and in January
the December of the preceding year. -/
def prevCalendarMonth (y m : Nat) : Nat × Nat :=
  if m = 1 then (y - 1, 12) else (y, m - 1)

/- ------------------------------------------------------------------ -/
/- Helper lemmas shared by several claims.                             -/
/- ------------------------------------------------------------------ -/

theorem mem_get_expenses {db : DB} {u : Nat} {r : Expense} :
    r ∈ get_expenses db u ↔ r ∈ db.expenses ∧ r.user_id = u := by
  simp [get_expenses, List.mem_insertionSort, List.mem_filter]

theorem length_get_expenses (db : DB) (u : Nat) :
    (get_expenses db u).length = (db.expenses.filter (fun e => e.user_id == u)).length := by
  simp [get_expenses, List.length_insertionSort]

theorem mem_get_expenses_filtered {db : DB} {u : Nat} {f : Filters} {r : Expense} :
    r ∈ get_expenses_filtered db u f ↔
      r ∈ db.expenses ∧ r.user_id = u ∧ matchesFilters f r = true := by
  simp [get_expenses_filtered, List.mem_insertionSort, List.mem_filter]

theorem orZero_sqlSum (l : List Rat) :
    orZero (sqlSum l) = l.foldl (· + ·) 0 := by
  cases l <;> simp [sqlSum, orZero]

theorem amountsPos_applyOp (db : DB) (op : Op) (h : AmountsPos db) :
    AmountsPos (applyOp db op) := by
  cases op with
  | addE u date amount c ds t p r n =>
    by_cases ha : 0 < amount
    · intro e he
      simp only [applyOp, add_expense, if_pos ha] at he
      rcases List.mem_append.1 he with h1 | h1
      · exact h e h1
      · rcases List.mem_singleton.1 h1 with rfl
        simpa [newExpense] using ha
    · intro e he
      simp only [applyOp, add_expense, if_neg ha] at he
      exact h e he
  | updateE u eid date amount c ds t p r n =>
    by_cases ha : 0 < amount
    · intro e he
      simp only [applyOp, update_expense, if_pos ha] at he
      rcases List.mem_map.1 he with ⟨e0, he0, rfl⟩
      by_cases hc : (e0.id == eid && e0.user_id == u) = true
      · rw [if_pos hc]
        exact ha
      · rw [if_neg hc]
        exact h e0 he0
    · intro e he
      simp only [applyOp, update_expense, if_neg ha] at he
      exact h e he
  | deleteE u eid =>
    intro e he
    simp only [applyOp, delete_expense] at he
    exact h e (List.mem_filter.1 he).1

theorem amountsPos_runOps (ops : List Op) :
    ∀ db : DB, AmountsPos db → AmountsPos (runOps db ops) := by
  induction ops with
  | nil => exact fun db h => h
  | cons op ops ih => exact fun db h => ih (applyOp db op) (amountsPos_applyOp db op h)

/-- Claim C8: every stored expense row has amount strictly greater than 0.
The add form rejects a non-positive amount before any storage call, the
storage CHECK constraint rejects a non-positive amount on insert and on
update (modelled by the guard of add_expense and update_expense, which then
report failure with the table unchanged), and consequently any sequence of
add, update and delete operations preserves positivity of every stored
amount. -/
theorem c8_positive_amount_invariant :
    (∀ (db : DB) (u : Nat) (date : String) (amount : Rat)
        (c d t p : String) (r : Bool) (n : Nat), amount ≤ 0 →
      add_expense db u date amount c d t p r n = (db, false)) ∧
    (∀ (db : DB) (u : Nat) (date : String) (amount : Rat)
        (c d t p : String) (r : Bool) (n : Nat), amount ≤ 0 →
      render_add_expense_submit db u date amount c d t p r n = (db, false)) ∧
    (∀ (db : DB) (u eid : Nat) (date : String) (amount : Rat)
        (c d t p : String) (r : Bool) (n : Nat), amount ≤ 0 →
      update_expense db u eid date amount c d t p r n = (db, false)) ∧
    (∀ (db : DB) (ops : List Op), AmountsPos db → AmountsPos (runOps db ops)) := by
  refine ⟨?_, ?_, ?_, ?_⟩
  · intro db u date amount c d t p r n h
    rw [add_expense, if_neg (not_lt.2 h)]
  · intro db u date amount c d t p r n h
    rw [render_add_expense_submit, if_neg (not_lt.2 h)]
  · intro db u eid date amount c d t p r n h
    rw [update_expense, if_neg (not_lt.2 h)]
  · intro db ops h
    exact amountsPos_runOps ops db h

/-- Witness for C8 at concrete inputs: a zero-amount insert, a negative
submit, a zero-amount update are all rejected no-ops, and a concrete
add-then-delete sequence keeps every stored amount positive. -/
theorem c8_positive_amount_invariant_witness :
    add_expense emptyDB 1 "2024-01-01" 0 "Food" "" "" "Cash" false 0 = (emptyDB, false) ∧
    render_add_expense_submit emptyDB 1 "2024-01-01" (-3) "Food" "" "" "Cash" false 0 =
      (emptyDB, false) ∧
    update_expense emptyDB 1 1 "2024-01-01" 0 "Food" "" "" "Cash" false 0 = (emptyDB, false) ∧
    AmountsPos (runOps emptyDB
      [Op.addE 1 "2024-01-05" 5 "Food" "" "" "Cash" false 0, Op.deleteE 1 1]) := by
  refine ⟨c8_positive_amount_invariant.1 _ _ _ _ _ _ _ _ _ _ (by decide),
     c8_positive_amount_invariant.2.1 _ _ _ _ _ _ _ _ _ _ (by decide),
     c8_positive_amount_invariant.2.2.1 _ _ _ _ _ _ _ _ _ _ _ (by decide),
     c8_positive_amount_invariant.2.2.2 _ _ (by intro e he; simp [emptyDB] at he)⟩

/-- Claim C9: the reset utility and first-run initialization are equivalent
seeders.  The transcribed CREATE TABLE schemas coincide table by table and
column by column, the nine default category rows and six default payment
method rows coincide value by value and in order, and running the init_db
seeding on a fresh empty database yields exactly the database that
reset_database builds. -/
theorem c9_reset_matches_init :
    init_db_schema = reset_database_schema ∧
    init_db_default_categories = reset_default_categories ∧
    init_db_default_payments = reset_default_payments ∧
    init_db_default_categories.length = 9 ∧
    init_db_default_payments.length = 6 ∧
    init_db_seed emptyDB = reset_database_db :=
  ⟨rfl, rfl, rfl, rfl, rfl, rfl⟩

/-- Claim C10: the previous-month key of get_monthly_summary (replace the
day with 1, subtract one day, format as year-month) always denotes the
calendar month immediately preceding the current month, across year
boundaries: for any valid current date, in particular any January, it
equals the formatted predecessor month. -/
theorem c10_previous_month_key (today : Date)
    (hm1 : 1 ≤ today.month) (hm12 : today.month ≤ 12)
    (hd1 : 1 ≤ today.day) (hdm : today.day ≤ daysInMonth today.year today.month)
    (hy : 1 ≤ today.year) :
    lastMonthKey today =
      monthStr (prevCalendarMonth today.year today.month).1
        (prevCalendarMonth today.year today.month).2 := by
  rcases today with ⟨y, m, d⟩
  dsimp only at hm1 hm12 hd1 hdm hy
  simp only [lastMonthKey, replaceDay1, subOneDay, prevCalendarMonth]
  by_cases hm : 1 < m
  · have hne : ¬m = 1 := by omega
    simp [hm, hne]
  · have heq : m = 1 := by omega
    simp [hm, heq]

/-- Witness for C10 at a January date: the previous-month key of
January 15, 2025 is the formatted December 2024, i.e. the string 2024-12. -/
theorem c10_previous_month_key_witness :
    lastMonthKey { year := 2025, month := 1, day := 15 } =
      monthStr (prevCalendarMonth 2025 1).1 (prevCalendarMonth 2025 1).2 ∧
    lastMonthKey { year := 2025, month := 1, day := 15 } = "2024-12" :=
  ⟨c10_previous_month_key { year := 2025, month := 1, day := 15 }
      (by decide) (by decide) (by decide) (by decide) (by decide),
   by decide⟩

/-- Claim C6: get_monthly_summary returns the current-month total, the
previous-month total and the current-month transaction count, where month
membership is decided by matching the formatted month key as a string
prefix of the stored date text, and on a data set with no expenses for the
user it returns zero totals and a zero count rather than an error or null
(the NULL returned by SUM over no rows is turned into 0 by the or-0
idiom). -/
theorem c6_monthly_summary (db : DB) (u : Nat) (today : Date) :
    (get_monthly_summary db u today).1 =
      ((db.expenses.filter
        (fun e => e.user_id == u && likePrefix (currentMonthKey today) e.date)).map
        (·.amount)).foldl (· + ·) 0 ∧
    (get_monthly_summary db u today).2.1 =
      ((db.expenses.filter
        (fun e => e.user_id == u && likePrefix (lastMonthKey today) e.date)).map
        (·.amount)).foldl (· + ·) 0 ∧
    (get_monthly_summary db u today).2.2 =
      (db.expenses.filter
        (fun e => e.user_id == u && likePrefix (currentMonthKey today) e.date)).length ∧
    (db.expenses.filter (fun e => e.user_id == u) = [] →
      get_monthly_summary db u today = (0, 0, 0)) := by
  refine ⟨orZero_sqlSum _, orZero_sqlSum _, rfl, ?_⟩
  intro h
  have h0 : ∀ e ∈ db.expenses, ¬(e.user_id == u) = true := List.filter_eq_nil_iff.1 h
  have h1 : ∀ q : Expense → Bool,
      db.expenses.filter (fun e => e.user_id == u && q e) = [] := by
    intro q
    refine List.filter_eq_nil_iff.2 ?_
    intro e he hq
    simp only [Bool.and_eq_true] at hq
    exact h0 e he hq.1
  simp [get_monthly_summary, h1, sqlSum, orZero]

/-- Witness for C6: on the empty database the summary is a zero current
total, a zero previous total and a zero count. -/
theorem c6_monthly_summary_witness :
    get_monthly_summary emptyDB 1 scenarioToday = (0, 0, 0) :=
  (c6_monthly_summary emptyDB 1 scenarioToday).2.2.2 (by decide)

theorem map_if_false {α : Type} (f : α → α) (P : α → Bool) :
    ∀ l : List α, (∀ a ∈ l, P a = false) →
      l.map (fun a => if P a then f a else a) = l := by
  intro l
  induction l with
  | nil => intro _; rfl
  | cons x xs ih =>
    intro h
    simp only [List.map_cons]
    rw [h x (List.mem_cons_self x xs), ih (fun a ha => h a (List.mem_cons_of_mem x ha))]
    simp

/-- Claim C4 (amended): when no expense row has the given id and owner,
update_expense and delete_expense leave the expenses table unchanged and
return False; conversely when such a row exists, delete_expense returns
True, and update_expense returns True provided the new amount is positive
(the storage CHECK rejects a non-positive amount, in which case it returns
False with the table unchanged even though the row exists). -/
theorem c4_missing_row_is_noop (db : DB) (u eid : Nat) :
    ((∀ r ∈ db.expenses, ¬(r.id = eid ∧ r.user_id = u)) →
      (∀ (date : String) (amount : Rat) (c d t p : String) (rec : Bool) (n : Nat),
        (update_expense db u eid date amount c d t p rec n).1 = db ∧
        (update_expense db u eid date amount c d t p rec n).2 = false) ∧
      (delete_expense db u eid).1 = db ∧ (delete_expense db u eid).2 = false) ∧
    ((∃ r ∈ db.expenses, r.id = eid ∧ r.user_id = u) →
      (∀ (date : String) (amount : Rat) (c d t p : String) (rec : Bool) (n : Nat),
        0 < amount →
        (update_expense db u eid date amount c d t p rec n).2 = true) ∧
      (delete_expense db u eid).2 = true) := by
  constructor
  · intro hnone
    have hc : ∀ e ∈ db.expenses, (e.id == eid && e.user_id == u) = false := by
      intro e he
      rw [Bool.eq_false_iff]
      intro hcontra
      simp only [Bool.and_eq_true] at hcontra
      rcases hcontra with ⟨h1, h2⟩
      exact hnone e he ⟨beq_iff_eq.1 h1, beq_iff_eq.1 h2⟩
    have hany : db.expenses.any (fun e => e.id == eid && e.user_id == u) = false :=
      List.any_eq_false.2 (by intro a ha; simp [hc a ha])
    refine ⟨?_, ?_, ?_⟩
    · intro date amount c d t p rec n
      unfold update_expense
      by_cases ha : 0 < amount
      · rw [if_pos ha]
        exact ⟨by rw [map_if_false _ _ _ hc], hany⟩
      · rw [if_neg ha]
        exact ⟨rfl, rfl⟩
    · show ({ db with expenses := _ } : DB) = db
      rw [List.filter_eq_self.2 (by intro a ha; simp [hc a ha])]
    · exact hany
  · intro hsome
    rcases hsome with ⟨r, hr, hid, hu⟩
    have hcond : (r.id == eid && r.user_id == u) = true := by
      simp only [Bool.and_eq_true]
      exact ⟨beq_iff_eq.2 hid, beq_iff_eq.2 hu⟩
    have hany : db.expenses.any (fun e => e.id == eid && e.user_id == u) = true :=
      List.any_eq_true.2 ⟨r, hr, hcond⟩
    refine ⟨?_, hany⟩
    intro date amount c d t p rec n ha
    unfold update_expense
    rw [if_pos ha]
    exact hany

/-- Witness for C4: on a one-row database, updating or deleting a
non-existent id 99 is a no-op returning False, and deleting the existing
row with id 1 reports True. -/
theorem c4_missing_row_is_noop_witness :
    (update_expense oneRowDB 1 99 "2024-01-02" 9 "Food" "" "" "Cash" false 7).1 = oneRowDB ∧
    (update_expense oneRowDB 1 99 "2024-01-02" 9 "Food" "" "" "Cash" false 7).2 = false ∧
    (delete_expense oneRowDB 1 99).1 = oneRowDB ∧
    (delete_expense oneRowDB 1 99).2 = false ∧
    (delete_expense oneRowDB 1 1).2 = true ∧
    (update_expense oneRowDB 1 1 "2024-01-02" 9 "Food" "" "" "Cash" false 7).2 = true := by
  have h := c4_missing_row_is_noop oneRowDB 1 99
  have h1 := h.1 (by decide)
  have h2 := c4_missing_row_is_noop oneRowDB 1 1
  have h3 := h2.2 (by decide)
  exact ⟨(h1.1 "2024-01-02" 9 "Food" "" "" "Cash" false 7).1,
    (h1.1 "2024-01-02" 9 "Food" "" "" "Cash" false 7).2,
    h1.2.1, h1.2.2, h3.2, h3.1 "2024-01-02" 9 "Food" "" "" "Cash" false 7 (by decide)⟩

/-- Counterexample to C4 exactly as stated: in a database whose only row
has id 1 and owner 1, the owning user updates that existing row with a
non-positive amount; the claim says the call returns True whenever such a
row exists, but the storage CHECK rejects the amount and update_expense
returns False (leaving the table unchanged). -/
theorem c4_counterexample :
    (∃ r ∈ oneRowDB.expenses, r.id = 1 ∧ r.user_id = 1) ∧
    (update_expense oneRowDB 1 1 "2024-01-02" (-1) "Food" "" "" "Cash" false 7).2 = false ∧
    (update_expense oneRowDB 1 1 "2024-01-02" (-1) "Food" "" "" "Cash" false 7).1 = oneRowDB := by
  decide

/-- Claim C2: for a category row with budget 0 and positive current-month
spending, get_budget_performance raises no division error (the function
totally produces a row for the category; pandas float division by zero
yields a value, not an exception) and reports the fixed, well-defined
sentinel value positive infinity in the percentage column, together with
the Over Budget status, independent of the actual spent amount. -/
theorem c2_zero_budget_sentinel (db : DB) (u : Nat) (today : Date) (c : Category)
    (hc : c ∈ db.categories) (hb : c.budget = 0)
    (hs : 0 < spentFor db u (currentMonthKey today) c.name) :
    ∃ r ∈ get_budget_performance db u today,
      r.name = c.name ∧
      r.spent = spentFor db u (currentMonthKey today) c.name ∧
      r.percentage = PFloat.posInf ∧
      r.status = "Over Budget" := by
  have hcs : c ∈ db.categories.insertionSort catLe := (List.mem_insertionSort catLe).2 hc
  refine ⟨_, List.mem_map.2 ⟨c, hcs, rfl⟩, rfl, rfl, ?_, ?_⟩
  · show pround1 (pmul100 (pdiv (spentFor db u (currentMonthKey today) c.name) c.budget)) =
      PFloat.posInf
    rw [hb]
    simp [pdiv, hs, pmul100, pround1]
  · show (if c.budget - spentFor db u (currentMonthKey today) c.name < 0 then
        "Over Budget" else "Within Budget") = "Over Budget"
    rw [hb, if_pos (by linarith)]

theorem zeroBudget_spent_pos :
    0 < spentFor zeroBudgetDB 1 (currentMonthKey scenarioToday) "Misc" := by
  have hl : likePrefix (currentMonthKey scenarioToday) "2024-03-10" = true := by decide
  simp [spentFor, zeroBudgetDB, List.filter, hl]

/-- Witness for C2: in a database with a budget-0 category Misc and a
current-month expense of 5 in it, the budget performance row for Misc
carries percentage positive infinity and status Over Budget. -/
theorem c2_zero_budget_sentinel_witness :
    ∃ r ∈ get_budget_performance zeroBudgetDB 1 scenarioToday,
      r.name = "Misc" ∧
      r.spent = spentFor zeroBudgetDB 1 (currentMonthKey scenarioToday) "Misc" ∧
      r.percentage = PFloat.posInf ∧
      r.status = "Over Budget" :=
  c2_zero_budget_sentinel zeroBudgetDB 1 scenarioToday
    { name := "Misc", budget := 0, color := "#FF6B6B", icon := "💰" }
    (by decide) rfl zeroBudget_spent_pos

theorem filter_add_expense_other (db : DB) (B : Nat) (q : Expense → Bool)
    (date : String) (amount : Rat) (c d t pm : String) (rec : Bool) (n : Nat)
    (hq : q (newExpense db B date amount c d t pm rec n) = false) :
    (add_expense db B date amount c d t pm rec n).1.expenses.filter q =
      db.expenses.filter q := by
  unfold add_expense
  by_cases ha : 0 < amount
  · rw [if_pos ha]
    simp [List.filter_append, hq]
  · rw [if_neg ha]

theorem add_expense_categories (db : DB) (B : Nat) (date : String) (amount : Rat)
    (c d t pm : String) (rec : Bool) (n : Nat) :
    (add_expense db B date amount c d t pm rec n).1.categories = db.categories := by
  unfold add_expense
  split <;> rfl

/-- Claim C1: ownership isolation.  Every read for user A (the default
get_expenses, the filtered variant, and all four aggregate queries: the
monthly summary, the budget performance, the category spending and the
monthly trend) depends only on rows whose user_id is A and never on a row
created by a distinct user B: reads return only rows owned by A, and rows
added by B change none of the results read for A; update_expense and
delete_expense invoked by A leave every row owned by B present and
unchanged. -/
theorem c1_ownership_isolation (db : DB) (A B : Nat) (hAB : A ≠ B) :
    (∀ r ∈ get_expenses db A, r.user_id = A) ∧
    (∀ f : Filters, ∀ r ∈ get_expenses_filtered db A f, r.user_id = A) ∧
    (∀ (date : String) (amount : Rat) (c d t pm : String) (rec : Bool) (n : Nat),
      get_expenses (add_expense db B date amount c d t pm rec n).1 A =
        get_expenses db A) ∧
    (∀ (today : Date) (date : String) (amount : Rat) (c d t pm : String)
        (rec : Bool) (n : Nat),
      get_monthly_summary (add_expense db B date amount c d t pm rec n).1 A today =
        get_monthly_summary db A today) ∧
    (∀ (today : Date) (date : String) (amount : Rat) (c d t pm : String)
        (rec : Bool) (n : Nat),
      get_budget_performance (add_expense db B date amount c d t pm rec n).1 A today =
        get_budget_performance db A today) ∧
    (∀ (start_date date : String) (amount : Rat) (c d t pm : String)
        (rec : Bool) (n : Nat),
      get_category_spending (add_expense db B date amount c d t pm rec n).1 A start_date =
        get_category_spending db A start_date) ∧
    (∀ (start_date date : String) (amount : Rat) (c d t pm : String)
        (rec : Bool) (n : Nat),
      get_monthly_trend (add_expense db B date amount c d t pm rec n).1 A start_date =
        get_monthly_trend db A start_date) ∧
    (∀ (eid : Nat) (date : String) (amount : Rat) (c d t pm : String)
        (rec : Bool) (n : Nat),
      ∀ r ∈ db.expenses, r.user_id = B →
        r ∈ (update_expense db A eid date amount c d t pm rec n).1.expenses) ∧
    (∀ eid : Nat, ∀ r ∈ db.expenses, r.user_id = B →
        r ∈ (delete_expense db A eid).1.expenses) := by
  have hBA : (B == A) = false := beq_eq_false_iff_ne.2 (Ne.symm hAB)
  refine ⟨?_, ?_, ?_, ?_, ?_, ?_, ?_, ?_, ?_⟩
  · intro r hr
    exact (mem_get_expenses.1 hr).2
  · intro f r hr
    exact (mem_get_expenses_filtered.1 hr).2.1
  · intro date amount c d t pm rec n
    unfold get_expenses
    rw [filter_add_expense_other db B _ date amount c d t pm rec n
      (by simp [newExpense, hBA])]
  · intro today date amount c d t pm rec n
    unfold get_monthly_summary
    rw [filter_add_expense_other db B _ date amount c d t pm rec n
        (by simp [newExpense, hBA]),
      filter_add_expense_other db B _ date amount c d t pm rec n
        (by simp [newExpense, hBA])]
  · intro today date amount c d t pm rec n
    have hsp : ∀ cname : String,
        spentFor (add_expense db B date amount c d t pm rec n).1 A
            (currentMonthKey today) cname =
          spentFor db A (currentMonthKey today) cname := by
      intro cname
      unfold spentFor
      rw [filter_add_expense_other db B _ date amount c d t pm rec n
        (by simp [newExpense, hBA])]
    simp only [get_budget_performance, add_expense_categories, hsp]
  · intro start_date date amount c d t pm rec n
    unfold get_category_spending
    rw [filter_add_expense_other db B _ date amount c d t pm rec n
      (by simp [newExpense, hBA])]
  · intro start_date date amount c d t pm rec n
    unfold get_monthly_trend
    rw [filter_add_expense_other db B _ date amount c d t pm rec n
      (by simp [newExpense, hBA])]
  · intro eid date amount c d t pm rec n r hr hrB
    have hc : (r.id == eid && r.user_id == A) = false := by
      have : (r.user_id == A) = false := by
        rw [hrB]
        exact hBA
      simp [this]
    unfold update_expense
    by_cases ha : 0 < amount
    · rw [if_pos ha]
      refine List.mem_map.2 ⟨r, hr, ?_⟩
      rw [hc]
      simp
    · rw [if_neg ha]
      exact hr
  · intro eid r hr hrB
    have hc : (r.id == eid && r.user_id == A) = false := by
      have : (r.user_id == A) = false := by
        rw [hrB]
        exact hBA
      simp [this]
    exact List.mem_filter.2 ⟨hr, by simp [hc]⟩

/-- Witness for C1 on a concrete two-user database: an update and a delete
issued by user 1 against the row owned by user 2 leave that row intact, and
an insert by user 2 changes neither the row list nor the monthly summary
read for user 1. -/
theorem c1_ownership_isolation_witness :
    isoRowB ∈ (update_expense isoDB 1 2 "2024-03-12" 9 "Food" "x" "" "Cash" false 5).1.expenses ∧
    isoRowB ∈ (delete_expense isoDB 1 2).1.expenses ∧
    get_expenses (add_expense isoDB 2 "2024-03-12" 3 "Food" "" "" "Cash" false 1).1 1 =
      get_expenses isoDB 1 ∧
    get_monthly_summary (add_expense isoDB 2 "2024-03-12" 3 "Food" "" "" "Cash" false 1).1
        1 scenarioToday =
      get_monthly_summary isoDB 1 scenarioToday ∧
    get_monthly_trend (add_expense isoDB 2 "2024-03-12" 3 "Food" "" "" "Cash" false 1).1
        1 "2023-10-01" =
      get_monthly_trend isoDB 1 "2023-10-01" := by
  have h := c1_ownership_isolation isoDB 1 2 (by decide)
  exact ⟨h.2.2.2.2.2.2.2.1 2 "2024-03-12" 9 "Food" "x" "" "Cash" false 5 isoRowB (by decide) rfl,
    h.2.2.2.2.2.2.2.2 2 isoRowB (by decide) rfl,
    h.2.2.1 "2024-03-12" 3 "Food" "" "" "Cash" false 1,
    h.2.2.2.1 scenarioToday "2024-03-12" 3 "Food" "" "" "Cash" false 1,
    h.2.2.2.2.2.2.1 "2023-10-01" "2024-03-12" 3 "Food" "" "" "Cash" false 1⟩

/-- Claim C3: for every user and any input with a positive amount,
add_expense reports success, reading the expenses of that user afterwards
returns exactly one record more than before, the new record carries exactly
the supplied field values with the fresh AUTOINCREMENT id, that id differs
from every id present before the call, and every previously visible record
is still returned. -/
theorem c3_create_then_read (db : DB) (u : Nat) (date : String) (amount : Rat)
    (c d t pm : String) (rec : Bool) (n : Nat)
    (hWF : IdsFresh db) (ha : 0 < amount) :
    (add_expense db u date amount c d t pm rec n).2 = true ∧
    (get_expenses (add_expense db u date amount c d t pm rec n).1 u).length =
      (get_expenses db u).length + 1 ∧
    (∃ r ∈ get_expenses (add_expense db u date amount c d t pm rec n).1 u,
      r.id = db.next_id ∧ r.user_id = u ∧ r.date = date ∧ r.amount = amount ∧
      r.category = c ∧ r.description = d ∧ r.tags = t ∧
      r.payment_method = pm ∧ r.recurring = rec ∧
      r.created_at = n ∧ r.updated_at = n) ∧
    (∀ r ∈ db.expenses, r.id ≠ db.next_id) ∧
    (∀ r ∈ get_expenses db u,
      r ∈ get_expenses (add_expense db u date amount c d t pm rec n).1 u) := by
  have hexp : (add_expense db u date amount c d t pm rec n).1.expenses =
      db.expenses ++ [newExpense db u date amount c d t pm rec n] := by
    unfold add_expense
    rw [if_pos ha]
  refine ⟨?_, ?_, ?_, ?_, ?_⟩
  · unfold add_expense
    rw [if_pos ha]
  · rw [length_get_expenses, length_get_expenses, hexp]
    simp [List.filter_append, newExpense]
  · refine ⟨newExpense db u date amount c d t pm rec n, ?_,
      rfl, rfl, rfl, rfl, rfl, rfl, rfl, rfl, rfl, rfl, rfl⟩
    exact mem_get_expenses.2
      ⟨by rw [hexp]; exact List.mem_append_right _ (List.mem_singleton_self _), rfl⟩
  · intro r hr
    exact Nat.ne_of_lt (hWF r hr)
  · intro r hr
    rcases mem_get_expenses.1 hr with ⟨hmem, huser⟩
    exact mem_get_expenses.2 ⟨by rw [hexp]; exact List.mem_append_left _ hmem, huser⟩

/-- Witness for C3: adding a 5-unit Food expense to the empty database
succeeds and the read-back row count grows from zero to one. -/
theorem c3_create_then_read_witness :
    (add_expense emptyDB 1 "2024-01-01" 5 "Food" "" "" "Cash" false 0).2 = true ∧
    (get_expenses (add_expense emptyDB 1 "2024-01-01" 5 "Food" "" "" "Cash" false 0).1 1).length =
      (get_expenses emptyDB 1).length + 1 := by
  have h := c3_create_then_read emptyDB 1 "2024-01-01" 5 "Food" "" "" "Cash" false 0
    (by intro e he; simp [emptyDB] at he) (by decide)
  exact ⟨h.1, h.2.1⟩

/-- Claim C7: create, then successfully update, then read.  The update of
the freshly created row reports True, a row with the created id is still
returned, and every returned row with that id carries the updated field
values, keeps its creation timestamp, and has an updated_at equal to the
update time and hence different from its pre-update value. -/
theorem c7_update_roundtrip (db : DB) (u : Nat) (hWF : IdsFresh db)
    (dx : String) (ax : Rat) (cx dsx tx pmx : String) (rx : Bool) (nx : Nat)
    (dy : String) (ay : Rat) (cy dsy ty pmy : String) (ry : Bool) (ny : Nat)
    (hax : 0 < ax) (hay : 0 < ay) (hn : ny ≠ nx) :
    (update_expense (add_expense db u dx ax cx dsx tx pmx rx nx).1 u db.next_id
        dy ay cy dsy ty pmy ry ny).2 = true ∧
    (∃ r ∈ get_expenses (update_expense (add_expense db u dx ax cx dsx tx pmx rx nx).1 u
        db.next_id dy ay cy dsy ty pmy ry ny).1 u, r.id = db.next_id) ∧
    (∀ r ∈ get_expenses (update_expense (add_expense db u dx ax cx dsx tx pmx rx nx).1 u
        db.next_id dy ay cy dsy ty pmy ry ny).1 u,
      r.id = db.next_id →
      r.date = dy ∧ r.amount = ay ∧ r.category = cy ∧ r.description = dsy ∧
      r.tags = ty ∧ r.payment_method = pmy ∧ r.recurring = ry ∧
      r.created_at = nx ∧ r.updated_at = ny ∧ r.updated_at ≠ nx) := by
  have hexp1 : (add_expense db u dx ax cx dsx tx pmx rx nx).1.expenses =
      db.expenses ++ [newExpense db u dx ax cx dsx tx pmx rx nx] := by
    unfold add_expense
    rw [if_pos hax]
  have hcold : ∀ r ∈ db.expenses, (r.id == db.next_id && r.user_id == u) = false := by
    intro r hr
    have hne : (r.id == db.next_id) = false :=
      beq_eq_false_iff_ne.2 (Nat.ne_of_lt (hWF r hr))
    simp [hne]
  have hcnew : ((newExpense db u dx ax cx dsx tx pmx rx nx).id == db.next_id &&
      (newExpense db u dx ax cx dsx tx pmx rx nx).user_id == u) = true := by
    simp [newExpense]
  have hupd : (update_expense (add_expense db u dx ax cx dsx tx pmx rx nx).1 u db.next_id
      dy ay cy dsy ty pmy ry ny).1.expenses =
      db.expenses ++ [⟨db.next_id, u, dy, ay, cy, dsy, ty, pmy, ry, nx, ny⟩] := by
    unfold update_expense
    rw [if_pos hay]
    show (add_expense db u dx ax cx dsx tx pmx rx nx).1.expenses.map _ = _
    rw [hexp1, List.map_append]
    congr 1
    · exact map_if_false
        (fun e =>
          { e with
            date := dy, amount := ay, category := cy, description := dsy,
            tags := ty, payment_method := pmy, recurring := ry, updated_at := ny })
        (fun e => e.id == db.next_id && e.user_id == u) db.expenses hcold
    · rw [List.map_cons, hcnew]
      simp [newExpense]
  have hany : (update_expense (add_expense db u dx ax cx dsx tx pmx rx nx).1 u db.next_id
      dy ay cy dsy ty pmy ry ny).2 = true := by
    unfold update_expense
    rw [if_pos hay]
    show List.any _ _ = true
    refine List.any_eq_true.2 ⟨newExpense db u dx ax cx dsx tx pmx rx nx, ?_, hcnew⟩
    rw [hexp1]
    exact List.mem_append_right _ (List.mem_singleton_self _)
  refine ⟨hany, ?_, ?_⟩
  · exact ⟨⟨db.next_id, u, dy, ay, cy, dsy, ty, pmy, ry, nx, ny⟩,
      mem_get_expenses.2
        ⟨by rw [hupd]; exact List.mem_append_right _ (List.mem_singleton_self _), rfl⟩,
      rfl⟩
  · intro r hr hid
    rcases mem_get_expenses.1 hr with ⟨hmem, _⟩
    rw [hupd] at hmem
    rcases List.mem_append.1 hmem with hold | hnew
    · exact absurd hid (Nat.ne_of_lt (hWF r hold))
    · rcases List.mem_singleton.1 hnew with rfl
      exact ⟨rfl, rfl, rfl, rfl, rfl, rfl, rfl, rfl, rfl, hn⟩

/-- Witness for C7: in the empty database, creating a row and then updating
it with new values at a later timestamp reports success. -/
theorem c7_update_roundtrip_witness :
    (update_expense (add_expense emptyDB 1 "2024-01-01" 5 "Food" "" "" "Cash" false 0).1 1
        emptyDB.next_id "2024-02-02" 7 "Shopping" "gift" "a,b" "Check" true 1).2 = true :=
  (c7_update_roundtrip emptyDB 1 (by intro e he; simp [emptyDB] at he)
    "2024-01-01" 5 "Food" "" "" "Cash" false 0
    "2024-02-02" 7 "Shopping" "gift" "a,b" "Check" true 1
    (by decide) (by decide) (by decide)).1

theorem budget_row_of_category (db : DB) (u : Nat) (today : Date) (c : Category)
    (hc : c ∈ db.categories) :
    ∃ r ∈ get_budget_performance db u today,
      r.name = c.name ∧ r.budget = c.budget ∧ r.color = c.color ∧ r.icon = c.icon ∧
      r.spent = spentFor db u (currentMonthKey today) c.name ∧
      r.remaining = c.budget - spentFor db u (currentMonthKey today) c.name ∧
      (c.budget ≠ 0 →
        r.percentage =
          PFloat.val (roundTenth
            (spentFor db u (currentMonthKey today) c.name / c.budget * 100))) ∧
      r.status =
        (if c.budget - spentFor db u (currentMonthKey today) c.name < 0 then
          "Over Budget" else "Within Budget") := by
  have hcs : c ∈ db.categories.insertionSort catLe := (List.mem_insertionSort catLe).2 hc
  refine ⟨_, List.mem_map.2 ⟨c, hcs, rfl⟩, rfl, rfl, rfl, rfl, rfl, rfl, ?_, rfl⟩
  intro hb0
  show pround1 (pmul100 (pdiv (spentFor db u (currentMonthKey today) c.name) c.budget)) = _
  simp [pdiv, hb0, pmul100, pround1]

theorem scenario_food_spent :
    spentFor scenarioDB 1 (currentMonthKey scenarioToday) "Food" = 85 / 2 := by
  have hexp : scenarioDB.expenses =
      [newExpense (init_db_seed emptyDB) 1 "2024-03-15" (85 / 2) "Food" "" "" "Cash" false 0] := by
    show (add_expense (init_db_seed emptyDB) 1 "2024-03-15" (85 / 2) "Food" ""
      "" "Cash" false 0).1.expenses = _
    unfold add_expense
    rw [if_pos (by norm_num : (0 : Rat) < 85 / 2)]
    rfl
  have hl : likePrefix (currentMonthKey scenarioToday) "2024-03-15" = true := by decide
  unfold spentFor
  rw [hexp]
  simp [List.filter, newExpense, hl]

theorem scenario_food_row :
    ∃ r ∈ get_budget_performance scenarioDB 1 scenarioToday,
      r.name = "Food" ∧ r.spent = 85 / 2 ∧ r.remaining = 515 / 2 ∧
      r.percentage = PFloat.val (71 / 5) ∧ r.status = "Within Budget" := by
  have hcat : scenarioDB.categories = init_db_default_categories :=
    add_expense_categories (init_db_seed emptyDB) 1 "2024-03-15" (85 / 2) "Food" ""
      "" "Cash" false 0
  have hfood : ({ name := "Food", budget := 300, color := "#FF6B6B", icon := "🍔" } : Category)
      ∈ scenarioDB.categories := by
    rw [hcat]
    decide
  rcases budget_row_of_category scenarioDB 1 scenarioToday _ hfood with
    ⟨r, hmem, hname, _, _, _, hspent, hrem, hperc, hstat⟩
  refine ⟨r, hmem, hname, ?_, ?_, ?_, ?_⟩
  · rw [hspent, scenario_food_spent]
  · rw [hrem, scenario_food_spent]
    norm_num
  · rw [hperc (by norm_num), scenario_food_spent]
    norm_num [roundTenth, roundHalfEven]
  · rw [hstat, scenario_food_spent]
    rw [if_neg (by norm_num)]

/-- Claim C5: get_budget_performance produces one row per category; in each
row spent is the sum of the current-month expenses of the user whose
category text equals the category name, remaining is budget minus spent,
percentage is spent over budget times 100 rounded to one decimal (stated
for nonzero budgets; the zero-budget case is settled separately), and the
status is Over Budget exactly when remaining is negative and Within Budget
otherwise.  In the seeded example scenario with a single 42.50 Food expense
in the current month, the Food row shows spent 42.50, remaining 257.50,
percentage 14.2 and status Within Budget. -/
theorem c5_budget_performance (db : DB) (u : Nat) (today : Date) :
    (get_budget_performance db u today).length = db.categories.length ∧
    (∀ c ∈ db.categories, ∃ r ∈ get_budget_performance db u today,
      r.name = c.name ∧ r.budget = c.budget ∧
      r.spent = spentFor db u (currentMonthKey today) c.name ∧
      r.remaining = c.budget - spentFor db u (currentMonthKey today) c.name ∧
      (c.budget ≠ 0 →
        r.percentage =
          PFloat.val (roundTenth
            (spentFor db u (currentMonthKey today) c.name / c.budget * 100))) ∧
      r.status =
        (if c.budget - spentFor db u (currentMonthKey today) c.name < 0 then
          "Over Budget" else "Within Budget")) ∧
    (∃ r ∈ get_budget_performance scenarioDB 1 scenarioToday,
      r.name = "Food" ∧ r.spent = 85 / 2 ∧ r.remaining = 515 / 2 ∧
      r.percentage = PFloat.val (71 / 5) ∧ r.status = "Within Budget") := by
  refine ⟨?_, ?_, scenario_food_row⟩
  · simp [get_budget_performance, List.length_insertionSort]
  · intro c hc
    rcases budget_row_of_category db u today c hc with
      ⟨r, hmem, h1, h2, _, _, h5, h6, h7, h8⟩
    exact ⟨r, hmem, h1, h2, h5, h6, h7, h8⟩

/-- Witness for C5 at the concrete scenario database: nine budget rows for
nine categories, and the Food row carries the values of the example. -/
theorem c5_budget_performance_witness :
    (get_budget_performance scenarioDB 1 scenarioToday).length =
      scenarioDB.categories.length ∧
    (∃ r ∈ get_budget_performance scenarioDB 1 scenarioToday,
      r.name = "Food" ∧ r.spent = 85 / 2 ∧ r.remaining = 515 / 2 ∧
      r.percentage = PFloat.val (71 / 5) ∧ r.status = "Within Budget") :=
  ⟨(c5_budget_performance scenarioDB 1 scenarioToday).1,
   (c5_budget_performance scenarioDB 1 scenarioToday).2.2⟩
